import Mathlib

/-
Verification of the globus transfer-orchestration module (src/globus.py).
Each operation is shallowly embedded: the external globus command invocations
are abstracted by their observable results (process return code and decoded
JSON payload), local files written are returned explicitly, and Python
exceptions become Except.error values.
-/

namespace GlobusSpec

/-- Endpoint registry: the endpoints mapping loaded once from
globus-endpoints.yaml, modelled as an association list from endpoint name to
endpoint UUID. -/
abbrev Endpoints := List (String × String)

/-- Embedding of get_endpoint_uuid (src/globus.py lines 27-32): look the name
up in the endpoints mapping and return the UUID; raise ValueError for a name
that is not in the mapping. -/
def get_endpoint_uuid (endpoints : Endpoints) (endpoint : String) : Except String String :=
  match endpoints.lookup endpoint with
  | some u => Except.ok u
  | none => Except.error ("unknown endpoint: " ++ endpoint)

/-- Embedding of listdir (src/globus.py lines 75-123) after a successful
isactivated check has produced the boolean activated. The globus ls command is
abstracted by its observable result: the process returncode and, on success,
the names carried by the decoded DATA records. An inactive endpoint raises
ValueError; a non-zero returncode makes listdir return the empty list; on a
zero returncode the names are returned sorted (Python sorted on strings,
modelled by insertionSort under the lexicographic order). -/
def listdir (activated : Bool) (returncode : Int) (data : List String) :
    Except String (List String) :=
  if activated = false then Except.error ("endpoint is not activated")
  else if returncode ≠ 0 then Except.ok []
  else Except.ok (data.insertionSort (· ≤ ·))

/-- State of the remote endpoint filesystem as seen through the globus
commands, for the directory-manager embedding: the set of existing remote
directories (each a path given as its segment list, head segment "/" for
absolute paths, matching pathpart in makedirs), whether the endpoint is
activated, and the record of create-directory commands issued so far. -/
structure GlobusState where
  fs : List (List String)
  activated : Bool
  mkdirCalls : List (List String)
deriving Repr, DecidableEq

/-- Names of the entries of directory p in the remote filesystem: the last
segment of every existing path whose parent is p. These are the names the
globus ls DATA records report for p. -/
def fsChildren (fs : List (List String)) (p : List String) : List String :=
  fs.filterMap (fun q => if q.dropLast = p ∧ q ≠ [] then q.getLast? else none)

/-- Embedding of listdir as invoked by makedirs, against the filesystem state:
the isactivated check raises ValueError first; then globus ls of path p reports
the entries of p, sorted. A missing directory makes the command exit non-zero
and listdir return the empty list (src/globus.py lines 118-119), which
coincides with fsChildren having no entries at p. -/
def listdirFS (s : GlobusState) (p : List String) : Except String (List String) :=
  if s.activated = false then Except.error ("endpoint is not activated")
  else Except.ok ((fsChildren s.fs p).insertionSort (· ≤ ·))

/-- Embedding of mkdir (src/globus.py lines 126-137): the isactivated check
raises ValueError first; then the globus mkdir command creates the directory.
The issued create-directory call is recorded in mkdirCalls. -/
def mkdirFS (s : GlobusState) (p : List String) : Except String GlobusState :=
  if s.activated = false then Except.error ("endpoint is not activated")
  else Except.ok (GlobusState.mk (p :: s.fs) s.activated (s.mkdirCalls ++ [p]))

/-- Loop of makedirs (src/globus.py lines 157-160), iterating i over
range(1, len(pathpart)): list the parent prefix pathpart[0:i] and, when
segment pathpart[i] is absent from the listing, create pathpart[0:i+1].
An error raised by listdir or mkdir propagates, leaving the state as it was
at that point. The pair returned is the final state together with either
normal return or the propagated error. -/
def makedirsLoop (segs : List String) (i : Nat) (s : GlobusState) :
    GlobusState × Except String Unit :=
  if h : i < segs.length then
    match listdirFS s (segs.take i) with
    | Except.error e => (s, Except.error e)
    | Except.ok names =>
      if segs[i] ∈ names then makedirsLoop segs (i + 1) s
      else
        match mkdirFS s (segs.take (i + 1)) with
        | Except.error e => (s, Except.error e)
        | Except.ok s2 => makedirsLoop segs (i + 1) s2
  else (s, Except.ok ())
termination_by segs.length - i

/-- Embedding of makedirs (src/globus.py lines 140-160) applied to an absolute
path: segs is pathpart, the normpath split of the path with pathpart[0]
replaced by "/"; for every absolute path segs has at least two entries. The
loop starts at index 1. -/
def makedirs (segs : List String) (s : GlobusState) : GlobusState × Except String Unit :=
  makedirsLoop segs 1 s

/-- Status payload of a globus task as decoded from the JSON output of globus
task wait: the status field together with the remaining fields. -/
structure TaskData where
  status : String
  rest : List (String × String)
deriving Repr, DecidableEq

/-- Embedding of wait (src/globus.py lines 245-293). The globus task wait
command is abstracted by its returncode and, when its output parses as JSON,
the decoded payload. A non-zero returncode raises OSError; an output that does
not parse raises in json.loads; otherwise a status other than SUCCEEDED writes
the failure snapshot file named task_id.failure.json holding the full payload
and returns False, and status SUCCEEDED returns True. The returned pair is the
boolean result together with the list of snapshot files written (file name and
contents). -/
def wait (task_id : String) (returncode : Int) (payload : Option TaskData) :
    Except String (Bool × List (String × TaskData)) :=
  if returncode ≠ 0 then Except.error ("globus task wait failed")
  else
    match payload with
    | none => Except.error ("json decode error")
    | some td =>
      if td.status ≠ "SUCCEEDED" then
        Except.ok (false, [(task_id ++ ".failure.json", td)])
      else Except.ok (true, [])

/-- Embedding of wait_tasklist (src/globus.py lines 233-242): counts j is the
number of ACTIVE tasks reported by the j-th tasklist query, and the loop keeps
sleeping while that count exceeds N. fuel bounds the number of queries
modelled; the value is the number of queries made before the function returns,
or none when fuel ran out while the loop was still spinning. -/
def waitTasklistAux (counts : Nat → Nat) (N : Nat) : Nat → Nat → Option Nat
  | 0, _ => none
  | fuel + 1, j =>
    if counts j > N then waitTasklistAux counts N fuel (j + 1) else some (j + 1)

/-- Embedding of wait_tasklist starting from the first query. -/
def wait_tasklist (counts : Nat → Nat) (N : Nat) (fuel : Nat) : Option Nat :=
  waitTasklistAux counts N fuel 0

/-- Outcome of one retry-loop attempt of transfer, as determined by the remote
service: the submission (transfer_async, src/globus.py lines 163-207) either
raises OSError on a non-zero returncode, or succeeds, after which wait either
raises OSError, returns False, or returns True. -/
inductive AttemptOutcome
  | success
  | failure
  | submitError
  | pollError
deriving Repr, DecidableEq

/-- Embedding of the retry loop of transfer (src/globus.py lines 333-340):
for each of the remaining iterations, call wait_tasklist (a pure delay,
modelled as a no-op), submit via transfer_async, and wait on the task;
a True from wait returns True immediately, a False sleeps and loops, and an
OSError raised by transfer_async or wait propagates out. The oracle gives the
outcome of the attempt whose index equals the number of submissions already
made. The result pairs what transfer does (return a boolean, or let the
OSError escape) with the total number of transfer_async submissions made. -/
def transferLoop (oracle : Nat → AttemptOutcome) : Nat → Nat → Except String Bool × Nat
  | 0, subs => (Except.ok false, subs)
  | n + 1, subs =>
    match oracle subs with
    | AttemptOutcome.submitError => (Except.error ("globus transfer failed"), subs + 1)
    | AttemptOutcome.pollError => (Except.error ("globus task wait failed"), subs + 1)
    | AttemptOutcome.success => (Except.ok true, subs + 1)
    | AttemptOutcome.failure => transferLoop oracle n (subs + 1)

/-- Embedding of transfer (src/globus.py lines 296-340) after endpoint
resolution and manifest construction: run the retry loop for retry iterations
starting from zero submissions; exhausting the loop returns False. -/
def transfer (oracle : Nat → AttemptOutcome) (retry : Nat) : Except String Bool × Nat :=
  transferLoop oracle retry 0

/-- Embedding of the manifest construction in transfer (src/globus.py lines
329-331) when no batch file is supplied: the lines written to the batch file,
one line per positionally zipped pair of src_paths and dst_paths, each line
the source path, a space, and the destination path. -/
def manifestLines (src_paths dst_paths : List String) : List String :=
  (src_paths.zip dst_paths).map (fun sd => sd.1 ++ " " ++ sd.2)

/-- C9: for every name present in the loaded endpoint mapping,
get_endpoint_uuid returns the mapped UUID (being a pure function of the
mapping and the name, the same UUID on every call); for every absent name it
raises the unknown-endpoint ValueError and returns no value. -/
theorem c9_endpoint_registry (eps : Endpoints) (name : String) :
    (∀ u, eps.lookup name = some u → get_endpoint_uuid eps name = Except.ok u) ∧
    (eps.lookup name = none →
      get_endpoint_uuid eps name = Except.error ("unknown endpoint: " ++ name)) := by
  constructor
  · intro u h
    simp [get_endpoint_uuid, h]
  · intro h
    simp [get_endpoint_uuid, h]

/-- Witness for c9_endpoint_registry at the scenario mapping of the spec. -/
theorem c9_endpoint_registry_witness :
    get_endpoint_uuid [("site-a", "uuid-1111"), ("site-b", "uuid-2222")] "site-a" =
      Except.ok ("uuid-1111") ∧
    get_endpoint_uuid [("site-a", "uuid-1111"), ("site-b", "uuid-2222")] "site-c" =
      Except.error ("unknown endpoint: " ++ "site-c") :=
  ⟨(c9_endpoint_registry [("site-a", "uuid-1111"), ("site-b", "uuid-2222")] "site-a").1
      ("uuid-1111") (by decide),
   (c9_endpoint_registry [("site-a", "uuid-1111"), ("site-b", "uuid-2222")] "site-c").2
      (by decide)⟩

/-- C6: the manifest built by transfer from src_paths and dst_paths has
exactly min(len(src_paths), len(dst_paths)) lines, the i-th line being the
i-th source path, a space, and the i-th destination path, in the original
order; unequal lengths silently truncate to the shorter list. -/
theorem c6_manifest_zip (src_paths dst_paths : List String) :
    (manifestLines src_paths dst_paths).length =
      min src_paths.length dst_paths.length ∧
    ∀ (i : Nat) (sp dp : String), src_paths[i]? = some sp → dst_paths[i]? = some dp →
      (manifestLines src_paths dst_paths)[i]? = some (sp ++ " " ++ dp) := by
  constructor
  · simp [manifestLines]
  · intro i sp dp hs hd
    have hz : (src_paths.zip dst_paths)[i]? = some (sp, dp) := by
      rw [List.getElem?_zip_eq_some]
      exact ⟨hs, hd⟩
    simp [manifestLines, hz]

/-- Witness for c6_manifest_zip on a concrete unequal-length pair of lists. -/
theorem c6_manifest_zip_witness :
    (manifestLines [("/x/f1.nc"), ("/x/f2.nc")] [("/y/f1.nc")]).length =
      min 2 1 ∧
    (manifestLines [("/x/f1.nc"), ("/x/f2.nc")] [("/y/f1.nc")])[0]? =
      some ("/x/f1.nc" ++ " " ++ "/y/f1.nc") :=
  ⟨(c6_manifest_zip [("/x/f1.nc"), ("/x/f2.nc")] [("/y/f1.nc")]).1,
   (c6_manifest_zip [("/x/f1.nc"), ("/x/f2.nc")] [("/y/f1.nc")]).2 0
      ("/x/f1.nc") ("/y/f1.nc") (by decide) (by decide)⟩

/-- C5 counterexample: with the endpoint activated and the globus ls command
exiting with returncode 1, listdir returns the normal value [] (an empty
listing) instead of raising an error, refuting the claim that a non-zero exit
is always treated as a fault. -/
theorem c5_listdir_counterexample :
    listdir true 1 [("f1.nc")] = Except.ok [] := by
  rfl

/-- C5 amended: for every call to listdir on an activated endpoint in which
the remote command exits non-zero, listdir silently returns the empty listing
and raises no error. -/
theorem c5_listdir_nonzero_exit (returncode : Int) (data : List String)
    (h : returncode ≠ 0) :
    listdir true returncode data = Except.ok [] := by
  simp [listdir, h]

/-- Witness for c5_listdir_nonzero_exit at returncode 2. -/
theorem c5_listdir_nonzero_exit_witness :
    listdir true 2 [("f1.nc"), ("f2.nc")] = Except.ok [] :=
  c5_listdir_nonzero_exit 2 [("f1.nc"), ("f2.nc")] (by decide)

/-- C2: refutation of the claimed strict throttling at a concrete input.
With ceiling N = 80 and every tasklist query reporting exactly 80 ACTIVE
tasks, a count at the ceiling and hence not strictly below it, wait_tasklist
returns control to the caller right after the first query instead of blocking:
the loop in the source tests count > N where its own docstring (wait until the
task list has less than N active tasks) requires count >= N. -/
theorem c2_wait_tasklist_bug :
    wait_tasklist (fun _ => 80) 80 5 = some 1 ∧ ¬ 80 < 80 := by
  constructor
  · rfl
  · decide

/-- C3: for a poll command that succeeds with a parseable payload, wait
returns True exactly when the reported final status is SUCCEEDED; for every
other reported status it writes exactly one failure snapshot file named
task_id.failure.json containing the full status payload, returns False, and
raises no exception. -/
theorem c3_wait_terminal_status (task_id : String) (td : TaskData) :
    (wait task_id 0 (some td) = Except.ok (true, []) ↔ td.status = "SUCCEEDED") ∧
    (td.status ≠ "SUCCEEDED" →
      wait task_id 0 (some td) =
        Except.ok (false, [(task_id ++ ".failure.json", td)])) := by
  constructor
  · constructor
    · intro h
      by_contra hne
      simp [wait, hne] at h
    · intro h
      simp [wait, h]
  · intro h
    simp [wait, h]

/-- Witness for c3_wait_terminal_status at a FAILED payload. -/
theorem c3_wait_terminal_status_witness :
    wait ("t1") 0 (some (TaskData.mk ("FAILED") [])) =
      Except.ok (false, [("t1" ++ ".failure.json", TaskData.mk ("FAILED") [])]) :=
  (c3_wait_terminal_status ("t1") (TaskData.mk ("FAILED") [])).2 (by decide)

/-- C10: every successful listing returns the entry names sorted in ascending
lexicographic order: the result of listdir on a zero returncode is sorted, is
a permutation of the names the service reported, and is unchanged under any
reordering of the reported names. -/
theorem c10_listdir_sorted (data sortedNames : List String)
    (h : listdir true 0 data = Except.ok sortedNames) :
    List.Sorted (· ≤ ·) sortedNames ∧ List.Perm sortedNames data ∧
    ∀ data2, List.Perm data data2 → listdir true 0 data2 = Except.ok sortedNames := by
  have hs : data.insertionSort (· ≤ ·) = sortedNames := by
    simpa [listdir] using h
  refine ⟨hs ▸ List.sorted_insertionSort (· ≤ ·) data,
          hs ▸ List.perm_insertionSort (· ≤ ·) data, ?_⟩
  intro data2 hp
  have he : data2.insertionSort (· ≤ ·) = sortedNames := by
    rw [← hs]
    exact List.eq_of_perm_of_sorted
      (((List.perm_insertionSort (· ≤ ·) data2).trans hp.symm).trans
        (List.perm_insertionSort (· ≤ ·) data).symm)
      (List.sorted_insertionSort (· ≤ ·) data2)
      (List.sorted_insertionSort (· ≤ ·) data)
  unfold listdir
  rw [if_neg (by decide), if_neg (by decide), he]

/-- Witness for c10_listdir_sorted on a listing reported out of order. -/
theorem c10_listdir_sorted_witness :
    List.Sorted (· ≤ ·) [("a.nc"), ("b.nc")] ∧
    List.Perm [("a.nc"), ("b.nc")] [("b.nc"), ("a.nc")] ∧
    listdir true 0 [("a.nc"), ("b.nc")] = Except.ok [("a.nc"), ("b.nc")] := by
  obtain ⟨hs, hp, hinv⟩ :=
    c10_listdir_sorted [("b.nc"), ("a.nc")] [("a.nc"), ("b.nc")] (by
      unfold listdir
      rw [if_neg (by decide), if_neg (by decide)]
      simp [List.insertionSort, List.orderedInsert]
      decide)
  exact ⟨hs, hp, hinv [("a.nc"), ("b.nc")] (by decide)⟩

/-- Auxiliary: while the oracle keeps reporting plain transfer failure, the
retry loop just burns iterations and advances the submission count. -/
theorem transferLoop_fail_steps (oracle : Nat → AttemptOutcome) (m : Nat) :
    ∀ n subs, m ≤ n → (∀ i, i < m → oracle (subs + i) = AttemptOutcome.failure) →
    transferLoop oracle n subs = transferLoop oracle (n - m) (subs + m) := by
  induction m with
  | zero =>
    intro n subs _ _
    simp
  | succ m ih =>
    intro n subs hmn hfail
    cases n with
    | zero => omega
    | succ n =>
      have h0 : oracle subs = AttemptOutcome.failure := by
        simpa using hfail 0 (by omega)
      have hstep : transferLoop oracle (n + 1) subs = transferLoop oracle n (subs + 1) := by
        simp [transferLoop, h0]
      rw [hstep]
      have hrec := ih n (subs + 1) (by omega) (fun i hi => by
        have hx := hfail (i + 1) (by omega)
        rw [show subs + 1 + i = subs + (i + 1) by omega]
        exact hx)
      rw [hrec]
      rw [show n - m = n + 1 - (m + 1) by omega,
          show subs + 1 + m = subs + (m + 1) by omega]

/-- C1: with retry limit N and a remote service that reports failure on every
attempt, transfer submits exactly N tasks and returns False; with a service
that first succeeds on attempt k with k at most N, transfer returns True after
exactly k submissions and performs no submission after the successful one. -/
theorem c1_transfer_retry (oracle : Nat → AttemptOutcome) (N k : Nat) :
    ((∀ i, oracle i = AttemptOutcome.failure) →
      transfer oracle N = (Except.ok false, N)) ∧
    (1 ≤ k → k ≤ N → (∀ i, i < k - 1 → oracle i = AttemptOutcome.failure) →
      oracle (k - 1) = AttemptOutcome.success →
      transfer oracle N = (Except.ok true, k)) := by
  constructor
  · intro hfail
    have hstep := transferLoop_fail_steps oracle N N 0 (by omega)
      (fun i _ => hfail (0 + i))
    unfold transfer
    rw [hstep]
    simp [transferLoop]
  · intro hk hkN hfail hsucc
    have hstep := transferLoop_fail_steps oracle (k - 1) N 0 (by omega)
      (fun i hi => by simpa using hfail i hi)
    obtain ⟨m, hm⟩ : ∃ m, N - (k - 1) = m + 1 := ⟨N - (k - 1) - 1, by omega⟩
    have hred : transferLoop oracle (m + 1) (k - 1) = (Except.ok true, k - 1 + 1) := by
      simp [transferLoop, hsucc]
    unfold transfer
    rw [hstep, Nat.zero_add, hm, hred]
    rw [show k - 1 + 1 = k from by omega]

/-- Witness for c1_transfer_retry: success on the second of three allowed
attempts gives True after two submissions; constant failure with two allowed
attempts gives False after two submissions. -/
theorem c1_transfer_retry_witness :
    transfer (fun i => if i = 1 then AttemptOutcome.success
      else AttemptOutcome.failure) 3 = (Except.ok true, 2) ∧
    transfer (fun _ => AttemptOutcome.failure) 2 = (Except.ok false, 2) :=
  ⟨(c1_transfer_retry (fun i => if i = 1 then AttemptOutcome.success
      else AttemptOutcome.failure) 3 2).2 (by decide) (by decide) (by decide) (by decide),
   (c1_transfer_retry (fun _ => AttemptOutcome.failure) 2 0).1 (fun _ => rfl)⟩

/-- C4: when submission or polling raises on attempt j (reached after j plain
failures), the error propagates out of transfer at once: the loop makes no
further submission beyond the j+1 already made and transfer yields no
boolean. -/
theorem c4_error_propagation (oracle : Nat → AttemptOutcome) (N j : Nat)
    (hj : j < N) (hfail : ∀ i, i < j → oracle i = AttemptOutcome.failure)
    (herr : oracle j = AttemptOutcome.submitError ∨
      oracle j = AttemptOutcome.pollError) :
    (∃ e, (transfer oracle N).1 = Except.error e) ∧ (transfer oracle N).2 = j + 1 := by
  have hstep := transferLoop_fail_steps oracle j N 0 (by omega)
    (fun i hi => by simpa using hfail i hi)
  have hT : transfer oracle N = transferLoop oracle (N - j) j := by
    unfold transfer
    rw [hstep]
    rw [show 0 + j = j by omega]
  obtain ⟨m, hm⟩ : ∃ m, N - j = m + 1 := ⟨N - j - 1, by omega⟩
  rw [hm] at hT
  rcases herr with h | h
  · refine ⟨⟨"globus transfer failed", ?_⟩, ?_⟩
    · rw [hT]
      simp [transferLoop, h]
    · rw [hT]
      simp [transferLoop, h]
  · refine ⟨⟨"globus task wait failed", ?_⟩, ?_⟩
    · rw [hT]
      simp [transferLoop, h]
    · rw [hT]
      simp [transferLoop, h]

/-- Witness for c4_error_propagation: one plain failure and then a submission
error inside a budget of three retries ends the run at two submissions with
the error escaping. -/
theorem c4_error_propagation_witness :
    (∃ e, (transfer (fun i => if i = 0 then AttemptOutcome.failure
      else AttemptOutcome.submitError) 3).1 = Except.error e) ∧
    (transfer (fun i => if i = 0 then AttemptOutcome.failure
      else AttemptOutcome.submitError) 3).2 = 2 :=
  c4_error_propagation (fun i => if i = 0 then AttemptOutcome.failure
    else AttemptOutcome.submitError) 3 1 (by decide) (by decide) (Or.inl (by decide))

/-- Membership in the reported entries of a directory is exactly existence of
the corresponding child path in the filesystem. -/
theorem mem_fsChildren (fs : List (List String)) (p : List String) (a : String) :
    a ∈ fsChildren fs p ↔ p ++ [a] ∈ fs := by
  unfold fsChildren
  rw [List.mem_filterMap]
  constructor
  · rintro ⟨q, hq, hf⟩
    by_cases hc : q.dropLast = p ∧ q ≠ []
    · rw [if_pos hc] at hf
      have hrec : q.dropLast ++ [a] = q := List.dropLast_append_getLast? a hf
      rw [hc.1] at hrec
      rw [hrec]
      exact hq
    · rw [if_neg hc] at hf
      cases hf
  · intro hmem
    refine ⟨p ++ [a], hmem, ?_⟩
    rw [if_pos ⟨by simp, by simp⟩]
    simp

/-- Sorting does not change membership: a name is in the sorted listing of a
directory exactly when the corresponding child path exists. -/
theorem mem_sortedChildren (fs : List (List String)) (p : List String) (a : String) :
    a ∈ (fsChildren fs p).insertionSort (· ≤ ·) ↔ p ++ [a] ∈ fs := by
  rw [(List.perm_insertionSort (· ≤ ·) (fsChildren fs p)).mem_iff]
  exact mem_fsChildren fs p a

/-- Taking one more segment appends the segment at that index. -/
theorem take_succ_eq (segs : List String) (i : Nat) (h : i < segs.length) :
    segs.take (i + 1) = segs.take i ++ [segs[i]] := by
  rw [List.take_succ, List.getElem?_eq_getElem h]
  rfl

/-- On an activated endpoint, listdirFS reports the sorted entries. -/
theorem listdirFS_activated (s : GlobusState) (p : List String)
    (hact : s.activated = true) :
    listdirFS s p = Except.ok ((fsChildren s.fs p).insertionSort (· ≤ ·)) := by
  unfold listdirFS
  rw [hact]
  rfl

/-- On an endpoint that is not activated, listdirFS raises the ValueError. -/
theorem listdirFS_not_activated (s : GlobusState) (p : List String)
    (hact : s.activated = false) :
    listdirFS s p = Except.error ("endpoint is not activated") := by
  unfold listdirFS
  rw [hact]
  rfl

/-- On an activated endpoint, mkdirFS creates the directory and records the
issued call. -/
theorem mkdirFS_activated (s : GlobusState) (p : List String)
    (hact : s.activated = true) :
    mkdirFS s p =
      Except.ok (GlobusState.mk (p :: s.fs) s.activated (s.mkdirCalls ++ [p])) := by
  unfold mkdirFS
  rw [hact]
  rfl

/-- Past the last segment the loop returns normally without touching the
state. -/
theorem makedirsLoop_done (segs : List String) (i : Nat) (s : GlobusState)
    (h : ¬ i < segs.length) :
    makedirsLoop segs i s = (s, Except.ok ()) := by
  rw [makedirsLoop.eq_def, dif_neg h]

/-- When the endpoint is not activated and a segment remains, the loop stops
at once with the ValueError from listdir, the state untouched. -/
theorem makedirsLoop_not_activated (segs : List String) (i : Nat) (s : GlobusState)
    (h : i < segs.length) (hact : s.activated = false) :
    makedirsLoop segs i s = (s, Except.error ("endpoint is not activated")) := by
  rw [makedirsLoop.eq_def, dif_pos h, listdirFS_not_activated s _ hact]

/-- When the next prefix already exists, the loop issues no mkdir and moves
on. -/
theorem makedirsLoop_step_mem (segs : List String) (i : Nat) (s : GlobusState)
    (h : i < segs.length) (hact : s.activated = true)
    (hmem : segs.take (i + 1) ∈ s.fs) :
    makedirsLoop segs i s = makedirsLoop segs (i + 1) s := by
  rw [makedirsLoop.eq_def, dif_pos h]
  split
  next e heq =>
    rw [listdirFS_activated s _ hact] at heq
    cases heq
  next names heq =>
    rw [listdirFS_activated s _ hact] at heq
    injection heq with hnames
    subst hnames
    have hm : segs[i] ∈ (fsChildren s.fs (segs.take i)).insertionSort (· ≤ ·) := by
      rw [mem_sortedChildren, ← take_succ_eq segs i h]
      exact hmem
    rw [if_pos hm]

/-- When the next prefix is missing, the loop creates it and moves on. -/
theorem makedirsLoop_step_new (segs : List String) (i : Nat) (s : GlobusState)
    (h : i < segs.length) (hact : s.activated = true)
    (hmem : segs.take (i + 1) ∉ s.fs) :
    makedirsLoop segs i s = makedirsLoop segs (i + 1)
      (GlobusState.mk (segs.take (i + 1) :: s.fs) s.activated
        (s.mkdirCalls ++ [segs.take (i + 1)])) := by
  rw [makedirsLoop.eq_def, dif_pos h]
  split
  next e heq =>
    rw [listdirFS_activated s _ hact] at heq
    cases heq
  next names heq =>
    rw [listdirFS_activated s _ hact] at heq
    injection heq with hnames
    subst hnames
    have hm : segs[i] ∉ (fsChildren s.fs (segs.take i)).insertionSort (· ≤ ·) := by
      rw [mem_sortedChildren, ← take_succ_eq segs i h]
      exact hmem
    rw [if_neg hm, mkdirFS_activated s _ hact]

/-- A run of the loop on an activated endpoint returns normally, preserves
activation, only grows the filesystem, and leaves every prefix of segs from
index i on existing. -/
theorem makedirsLoop_ok (segs : List String) :
    ∀ fuel i s, segs.length - i ≤ fuel → s.activated = true →
    ∃ s1, makedirsLoop segs i s = (s1, Except.ok ()) ∧ s1.activated = true ∧
      (∀ p, p ∈ s.fs → p ∈ s1.fs) ∧
      (∀ j, i ≤ j → j < segs.length → segs.take (j + 1) ∈ s1.fs) := by
  intro fuel
  induction fuel with
  | zero =>
    intro i s hfuel hact
    refine ⟨s, makedirsLoop_done segs i s (by omega), hact, fun p hp => hp,
      fun j hij hj => absurd hj (by omega)⟩
  | succ fuel ih =>
    intro i s hfuel hact
    by_cases h : i < segs.length
    · by_cases hmem : segs.take (i + 1) ∈ s.fs
      · obtain ⟨s1, heq, hact1, hmono, hpref⟩ := ih (i + 1) s (by omega) hact
        refine ⟨s1, ?_, hact1, hmono, ?_⟩
        · rw [makedirsLoop_step_mem segs i s h hact hmem]
          exact heq
        · intro j hij hj
          rcases Nat.lt_or_ge i j with hlt | hge
          · exact hpref j (by omega) hj
          · have hji : j = i := by omega
            subst hji
            exact hmono _ hmem
      · obtain ⟨s1, heq, hact1, hmono, hpref⟩ := ih (i + 1)
          (GlobusState.mk (segs.take (i + 1) :: s.fs) s.activated
            (s.mkdirCalls ++ [segs.take (i + 1)])) (by omega) hact
        refine ⟨s1, ?_, hact1, ?_, ?_⟩
        · rw [makedirsLoop_step_new segs i s h hact hmem]
          exact heq
        · intro p hp
          exact hmono p (List.mem_cons_of_mem _ hp)
        · intro j hij hj
          rcases Nat.lt_or_ge i j with hlt | hge
          · exact hpref j (by omega) hj
          · have hji : j = i := by omega
            subst hji
            exact hmono _ (List.mem_cons_self _ _)
    · exact ⟨s, makedirsLoop_done segs i s h, hact, fun p hp => hp,
        fun j hij hj => absurd hj (by omega)⟩

/-- When every prefix of segs from index i on already exists, the loop is a
complete no-op: it returns normally with the state unchanged, so no mkdir
call is issued. -/
theorem makedirsLoop_noop (segs : List String) :
    ∀ fuel i s, segs.length - i ≤ fuel → s.activated = true →
    (∀ j, i ≤ j → j < segs.length → segs.take (j + 1) ∈ s.fs) →
    makedirsLoop segs i s = (s, Except.ok ()) := by
  intro fuel
  induction fuel with
  | zero =>
    intro i s hfuel hact _
    exact makedirsLoop_done segs i s (by omega)
  | succ fuel ih =>
    intro i s hfuel hact hpref
    by_cases h : i < segs.length
    · rw [makedirsLoop_step_mem segs i s h hact (hpref i (Nat.le_refl i) h)]
      exact ih (i + 1) s (by omega) hact (fun j hij hj => hpref j (by omega) hj)
    · exact makedirsLoop_done segs i s h

/-- C7: makedirs is idempotent: on an activated endpoint, a first call
returns normally, and a second call immediately after leaves the remote tree
in the same state, raises no error, and records no new create-directory
call. -/
theorem c7_makedirs_idempotent (segs : List String) (s : GlobusState)
    (hact : s.activated = true) :
    (makedirs segs s).2 = Except.ok () ∧
    makedirs segs (makedirs segs s).1 = ((makedirs segs s).1, Except.ok ()) ∧
    (makedirs segs (makedirs segs s).1).1.mkdirCalls =
      (makedirs segs s).1.mkdirCalls := by
  obtain ⟨s1, heq, hact1, hmono, hpref⟩ :=
    makedirsLoop_ok segs segs.length 1 s (by omega) hact
  unfold makedirs
  rw [heq]
  have hsecond : makedirsLoop segs 1 s1 = (s1, Except.ok ()) :=
    makedirsLoop_noop segs segs.length 1 s1 (by omega) hact1
      (fun j hij hj => hpref j hij hj)
  exact ⟨rfl, hsecond, by rw [hsecond]⟩

/-- Witness for c7_makedirs_idempotent on the path with pathpart
["/", "glade", "scratch"] starting from an empty activated filesystem. -/
theorem c7_makedirs_idempotent_witness :
    (makedirs [("/"), ("glade"), ("scratch")] (GlobusState.mk [] true [])).2 =
      Except.ok () ∧
    makedirs [("/"), ("glade"), ("scratch")]
        (makedirs [("/"), ("glade"), ("scratch")] (GlobusState.mk [] true [])).1 =
      ((makedirs [("/"), ("glade"), ("scratch")] (GlobusState.mk [] true [])).1,
        Except.ok ()) ∧
    (makedirs [("/"), ("glade"), ("scratch")]
        (makedirs [("/"), ("glade"), ("scratch")] (GlobusState.mk [] true [])).1).1.mkdirCalls =
      (makedirs [("/"), ("glade"), ("scratch")] (GlobusState.mk [] true [])).1.mkdirCalls :=
  c7_makedirs_idempotent [("/"), ("glade"), ("scratch")] (GlobusState.mk [] true []) rfl

/-- C8: on an endpoint that is not activated, makedirs on an absolute path
(whose pathpart always has at least two entries) stops with the activation
ValueError raised by the first listdir, before any create-directory call, and
leaves the state, in particular the remote tree, unchanged. -/
theorem c8_makedirs_not_activated (segs : List String) (s : GlobusState)
    (hact : s.activated = false) (hlen : 2 ≤ segs.length) :
    makedirs segs s = (s, Except.error ("endpoint is not activated")) := by
  unfold makedirs
  exact makedirsLoop_not_activated segs 1 s (by omega) hact

/-- Witness for c8_makedirs_not_activated on pathpart ["/", "glade"] with a
deactivated endpoint. -/
theorem c8_makedirs_not_activated_witness :
    makedirs [("/"), ("glade")] (GlobusState.mk [] false []) =
      (GlobusState.mk [] false [], Except.error ("endpoint is not activated")) :=
  c8_makedirs_not_activated [("/"), ("glade")] (GlobusState.mk [] false []) rfl
    (by decide)

end GlobusSpec
